import Mathlib

/-!
Verification of the chat session-continuity and optimistic-update core of the
Excelpoint frontend (src/hooks/useChat.ts, src/utils/sessionStorage.ts,
src/services/chatApi.ts, src/types/chat.ts).

Shallow embedding conventions:
* JavaScript numbers that the code only ever adds, subtracts, divides and
  compares are modelled as rationals with an explicit NaN constructor
  (`JsNum`); `new Date(string).getTime()` is modelled by an abstract parse
  function `String → Option Int` (milliseconds), `none` standing for an
  Invalid Date whose `getTime()` is NaN.  In JavaScript none of these
  operations throw.
* `localStorage` is modelled by `LocalStorage`: one cell per subject for the
  key `xp-chat-sessions-<subjectId>` and one cell for `xp-chat-activity`.
  A `Cell` is absent (getItem returns null), a parsed value (JSON.parse
  succeeds) or corrupt (JSON.parse throws).  Storage primitives can be made
  to throw through the `Faults` flags (quota/security errors).
* Effectful code is state passing in `JsM α = LocalStorage →
  Except JsErr α × LocalStorage`; a thrown exception carries the storage
  state at the throw point, exactly as JavaScript mutation plus try/catch
  behaves.  `catchJs body fallback` is `try { body } catch { return
  fallback }`.
* JavaScript object maps with numeric keys are modelled as association
  lists; updating an existing key keeps its position, a new key is appended.
  No theorem below depends on cross-key iteration order.
-/

/-- A runtime chat session as delivered by the backend.  The TypeScript
interface omits `status`, but `SessionStorageManager.storeSession` reads
`session.status === 'active'` and the spec's data model gives the session a
lifecycle status owned by the remote service, so the runtime shape carries
it. -/
structure ChatSession where
  id : Nat
  user : Nat
  subject : Nat
  is_active : Bool
  status : String
  created_at : String
  updated_at : String
deriving DecidableEq, Repr

/-- A chat message (src/types/chat.ts). -/
structure ChatMessage where
  id : Nat
  content : String
  role : String
  timestamp : String
  session : Nat
deriving DecidableEq, Repr

/-- The numeric literal `1000000000000` from `useChat.ts` `onSuccess`:
ids at or above it are treated as client-generated optimistic ids
(`Date.now()` values). -/
def TEMP_ID_THRESHOLD : Nat := 1000000000000

/-- `onMutate` of the send mutation: snapshot the previous messages and
optimistically append the provisional entry.  Returns (new cache contents,
snapshot `previousMessages`). -/
def onMutateCache (cache : List ChatMessage) (optimistic : ChatMessage) :
    List ChatMessage × List ChatMessage :=
  (cache ++ [optimistic], cache)

/-- `onError` of the send mutation: write the snapshot back. -/
def onErrorRollback (previousMessages : List ChatMessage) : List ChatMessage :=
  previousMessages

/-- The cache contents for the (topic, session) key after a send that
failed: `onMutate` ran, the request failed, `onError` rolled back. -/
def failedSendCache (cache : List ChatMessage) (optimistic : ChatMessage) :
    List ChatMessage :=
  let r := onMutateCache cache optimistic
  onErrorRollback r.2

/-- `onSuccess` of the send mutation: drop every message whose id is in the
reserved optimistic range and append the confirmed user and assistant
messages (`withoutOptimistic ++ [user_message, assistant_message]`). -/
def reconcileOnSuccess (oldMessages : List ChatMessage)
    (user_message assistant_message : ChatMessage) : List ChatMessage :=
  let withoutOptimistic := oldMessages.filter (fun msg => msg.id < TEMP_ID_THRESHOLD)
  withoutOptimistic ++ [user_message, assistant_message]

/-- The optimistic message built in `onMutate`: id is `Date.now()`, role
`'user'`, content the (already trimmed) send content, session
`currentSession?.id || 0`. -/
def mkOptimisticMessage (nowMs : Nat) (content : String) (nowIso : String)
    (sessionId : Nat) : ChatMessage :=
  { id := nowMs, content := content, role := "user", timestamp := nowIso,
    session := sessionId }

/- Concrete data for Scenario E (claim C2). -/

def scenE_provisional : ChatMessage :=
  { id := 1736000000000, content := "hi", role := "user", timestamp := "t0", session := 7 }

def scenE_user : ChatMessage :=
  { id := 101, content := "hi", role := "user", timestamp := "t1", session := 7 }

def scenE_assistant : ChatMessage :=
  { id := 102, content := "hello!", role := "assistant", timestamp := "t2", session := 7 }

/- Concrete data for the concurrent-sends scenario (claim C3). -/

def conc_pendingA : ChatMessage :=
  { id := 1736000005000, content := "first", role := "user", timestamp := "u0", session := 9 }

def conc_pendingB : ChatMessage :=
  { id := 1736000006000, content := "second", role := "user", timestamp := "u1", session := 9 }

def conc_userA : ChatMessage :=
  { id := 201, content := "first", role := "user", timestamp := "u2", session := 9 }

def conc_assistantA : ChatMessage :=
  { id := 202, content := "answer", role := "assistant", timestamp := "u3", session := 9 }

/-! ## JavaScript numbers and `isLocallyExpired` -/

/-- A JavaScript number as used by the date arithmetic of
`SessionStorageManager`: either NaN (an Invalid Date's `getTime()`) or an
exact value. -/
inductive JsNum where
  | nan
  | num (v : ℚ)
deriving DecidableEq, Repr

/-- `new Date(s).getTime()`: the host's date parser yields either a
millisecond timestamp or an Invalid Date (NaN).  In JavaScript this never
throws, whatever the string. -/
def dateGetTime (parseDate : String → Option Int) (s : String) : JsNum :=
  match parseDate s with
  | some ms => JsNum.num (ms : ℚ)
  | none => JsNum.nan

def jsSub : JsNum → JsNum → JsNum
  | JsNum.num a, JsNum.num b => JsNum.num (a - b)
  | _, _ => JsNum.nan

/-- Division by a nonzero constant; NaN propagates. -/
def jsDivC : JsNum → ℚ → JsNum
  | JsNum.num a, c => JsNum.num (a / c)
  | JsNum.nan, _ => JsNum.nan

/-- `x > c` on JavaScript numbers: any comparison with NaN is false. -/
def jsGtC : JsNum → ℚ → Bool
  | JsNum.num a, c => decide (c < a)
  | JsNum.nan, _ => false

/-- `SessionStorageManager.TIMEOUT_MINUTES`. -/
def TIMEOUT_MINUTES : ℚ := 5

/-- `SessionStorageManager.isLocallyExpired`.  The body computes
`(now - new Date(lastActivity).getTime()) / (1000 * 60) > TIMEOUT_MINUTES`.
None of `new Date(string)`, `getTime()` or the arithmetic can throw in
JavaScript (an unparseable string yields NaN, which propagates), so the
function is total and the source's catch branch (`return true`) never
runs. -/
def isLocallyExpired (parseDate : String → Option Int) (nowMs : Int)
    (lastActivity : String) : Bool :=
  jsGtC (jsDivC (jsSub (JsNum.num (nowMs : ℚ)) (dateGetTime parseDate lastActivity))
      (1000 * 60)) TIMEOUT_MINUTES

/-! ## The localStorage model -/

/-- What a read of one localStorage key can see: no entry, an entry whose
JSON parses to a value, or an entry whose JSON does not parse. -/
inductive Cell (α : Type) where
  | absent
  | value (a : α)
  | corrupt
deriving DecidableEq, Repr

/-- `StoredSessionData` (sessionStorage.ts), the per-subject record. -/
structure StoredSessionData where
  sessionId : Nat
  subjectId : Nat
  lastActivity : String
  isValid : Bool
deriving DecidableEq, Repr

/-- One entry of `ActivityData` (sessionStorage.ts), keyed by subject id. -/
structure ActivityEntry where
  sessionId : Nat
  lastActivity : String
  isValid : Bool
deriving DecidableEq, Repr

/-- Association-list lookup (JavaScript property read). -/
def alLookup {α : Type} : List (Nat × α) → Nat → Option α
  | [], _ => none
  | (k2, v) :: rest, k => if k2 = k then some v else alLookup rest k

/-- Association-list update (JavaScript property write: an existing key
keeps its position, a new key is appended). -/
def alSet {α : Type} : List (Nat × α) → Nat → α → List (Nat × α)
  | [], k, v => [(k, v)]
  | (k2, v2) :: rest, k, v =>
      if k2 = k then (k, v) :: rest else (k2, v2) :: alSet rest k v

/-- Association-list delete (JavaScript `delete obj[k]`). -/
def alDelete {α : Type} : List (Nat × α) → Nat → List (Nat × α)
  | [], _ => []
  | (k2, v) :: rest, k =>
      if k2 = k then alDelete rest k else (k2, v) :: alDelete rest k

/-- The localStorage keys this module touches: `xp-chat-sessions-<sid>` per
subject, and the single `xp-chat-activity` key. -/
structure LocalStorage where
  sessions : List (Nat × Cell StoredSessionData)
  activity : Cell (List (Nat × ActivityEntry))
deriving DecidableEq, Repr

/-- The cell stored under a subject's session key. -/
def sessionCell (st : LocalStorage) (sid : Nat) : Cell StoredSessionData :=
  match alLookup st.sessions sid with
  | some c => c
  | none => Cell.absent

/-- The activity map as a list, empty when absent or corrupt. -/
def activityListOf (st : LocalStorage) : List (Nat × ActivityEntry) :=
  match st.activity with
  | Cell.value v => v
  | _ => []

/-- Fault injection for the storage primitives: localStorage getItem /
setItem / removeItem throwing (security or quota errors). -/
structure Faults where
  getItemFails : Bool
  setItemFails : Bool
  removeItemFails : Bool
deriving DecidableEq, Repr

def noFaults : Faults := { getItemFails := false, setItemFails := false, removeItemFails := false }

inductive JsErr where
  | err
deriving DecidableEq, Repr

/-- Effectful JavaScript code over localStorage: the result is either a
value or a thrown exception, together with the storage state as mutated up
to that point (a throw does not roll anything back). -/
def JsM (α : Type) : Type := LocalStorage → Except JsErr α × LocalStorage

def jsPure {α : Type} (a : α) : JsM α := fun st => (Except.ok a, st)

def jsThrow {α : Type} : JsM α := fun st => (Except.error JsErr.err, st)

def jsBind {α β : Type} (m : JsM α) (f : α → JsM β) : JsM β := fun st =>
  match m st with
  | (Except.ok a, st1) => f a st1
  | (Except.error e, st1) => (Except.error e, st1)

/-- `try { body } catch { return fallback }`. -/
def catchJs {α : Type} (body : JsM α) (fallback : α) : JsM α := fun st =>
  match body st with
  | (Except.ok a, st1) => (Except.ok a, st1)
  | (Except.error _, st1) => (Except.ok fallback, st1)

/-- `try { body } catch { handler }`. -/
def catchWith {α : Type} (body : JsM α) (handler : JsM α) : JsM α := fun st =>
  match body st with
  | (Except.ok a, st1) => (Except.ok a, st1)
  | (Except.error _, st1) => handler st1

/-- Everything the storage layer needs from its host: the date parser, a
single "now" instant (milliseconds and its ISO string) and the fault
flags. -/
structure Env where
  parseDate : String → Option Int
  nowMs : Int
  nowIso : String
  faults : Faults

/- localStorage primitives. -/

def getSessionItem (flt : Faults) (sid : Nat) : JsM (Cell StoredSessionData) := fun st =>
  if flt.getItemFails then (Except.error JsErr.err, st)
  else (Except.ok (sessionCell st sid), st)

def setSessionItem (flt : Faults) (sid : Nat) (sd : StoredSessionData) : JsM Unit := fun st =>
  if flt.setItemFails then (Except.error JsErr.err, st)
  else (Except.ok (), { st with sessions := alSet st.sessions sid (Cell.value sd) })

def removeSessionItem (flt : Faults) (sid : Nat) : JsM Unit := fun st =>
  if flt.removeItemFails then (Except.error JsErr.err, st)
  else (Except.ok (), { st with sessions := alDelete st.sessions sid })

def getActivityItem (flt : Faults) : JsM (Cell (List (Nat × ActivityEntry))) := fun st =>
  if flt.getItemFails then (Except.error JsErr.err, st)
  else (Except.ok st.activity, st)

def setActivityItem (flt : Faults) (v : List (Nat × ActivityEntry)) : JsM Unit := fun st =>
  if flt.setItemFails then (Except.error JsErr.err, st)
  else (Except.ok (), { st with activity := Cell.value v })

/-! ## SessionStorageManager operations -/

/-- Body of the private `getActivityData`: read the activity key, return
`{}` when absent, parse otherwise (a corrupt cell makes JSON.parse
throw). -/
def getActivityDataBody (env : Env) : JsM (List (Nat × ActivityEntry)) :=
  jsBind (getActivityItem env.faults) (fun cell =>
    match cell with
    | Cell.absent => jsPure []
    | Cell.value v => jsPure v
    | Cell.corrupt => jsThrow)

/-- `getActivityData`, catch included (`return {}` on failure). -/
def getActivityData (env : Env) : JsM (List (Nat × ActivityEntry)) :=
  catchJs (getActivityDataBody env) []

/-- Body of `clearSession`: remove the subject key, then delete the subject
from the activity map and write it back. -/
def clearSessionBody (env : Env) (sid : Nat) : JsM Unit :=
  jsBind (removeSessionItem env.faults sid) (fun _ =>
  jsBind (getActivityData env) (fun ad =>
  setActivityItem env.faults (alDelete ad sid)))

/-- `clearSession`, catch included. -/
def clearSession (env : Env) (sid : Nat) : JsM Unit :=
  catchJs (clearSessionBody env sid) ()

/-- Body of `getStoredSession`: read the subject key, `null` when absent,
parse, then the lazy expiry check — an expired record is cleared and
reported absent. -/
def getStoredSessionBody (env : Env) (sid : Nat) : JsM (Option StoredSessionData) :=
  jsBind (getSessionItem env.faults sid) (fun cell =>
    match cell with
    | Cell.absent => jsPure none
    | Cell.corrupt => jsThrow
    | Cell.value sd =>
        if isLocallyExpired env.parseDate env.nowMs sd.lastActivity then
          jsBind (clearSession env sid) (fun _ => jsPure none)
        else jsPure (some sd))

/-- `getStoredSession`, catch included (`return null` on failure). -/
def getStoredSession (env : Env) (sid : Nat) : JsM (Option StoredSessionData) :=
  catchJs (getStoredSessionBody env sid) none

/-- The validity flag `storeSession` computes:
`session.status === 'active' && session.is_active`. -/
def sessionIsValidFlag (session : ChatSession) : Bool :=
  (session.status = "active" : Bool) && session.is_active

/-- Body of `storeSession`: upsert the subject's activity entry and write
the activity map, then write the per-subject record. -/
def storeSessionBody (env : Env) (sid : Nat) (session : ChatSession) : JsM Unit :=
  jsBind (getActivityData env) (fun ad =>
  jsBind (setActivityItem env.faults
      (alSet ad sid
        { sessionId := session.id, lastActivity := env.nowIso,
          isValid := sessionIsValidFlag session })) (fun _ =>
  setSessionItem env.faults sid
    { sessionId := session.id, subjectId := sid, lastActivity := env.nowIso,
      isValid := sessionIsValidFlag session }))

/-- `storeSession`, catch included. -/
def storeSession (env : Env) (sid : Nat) (session : ChatSession) : JsM Unit :=
  catchJs (storeSessionBody env sid session) ()

/-- Body of `updateActivity` (the activity touch): refresh the timestamp of
the stored record, if any, in both places. -/
def updateActivityBody (env : Env) (sid : Nat) : JsM Unit :=
  jsBind (getStoredSession env sid) (fun sdOpt =>
    match sdOpt with
    | none => jsPure ()
    | some sd =>
        jsBind (setSessionItem env.faults sid { sd with lastActivity := env.nowIso }) (fun _ =>
        jsBind (getActivityData env) (fun ad =>
          match alLookup ad sid with
          | some entry =>
              setActivityItem env.faults
                (alSet ad sid { entry with lastActivity := env.nowIso })
          | none => jsPure ())))

/-- `updateActivity`, catch included. -/
def updateActivity (env : Env) (sid : Nat) : JsM Unit :=
  catchJs (updateActivityBody env sid) ()

/-- Body of `markSessionInvalid`: set the stored record's flag to false in
both places, keeping the record. -/
def markSessionInvalidBody (env : Env) (sid : Nat) : JsM Unit :=
  jsBind (getStoredSession env sid) (fun sdOpt =>
    match sdOpt with
    | none => jsPure ()
    | some sd =>
        jsBind (setSessionItem env.faults sid { sd with isValid := false }) (fun _ =>
        jsBind (getActivityData env) (fun ad =>
          match alLookup ad sid with
          | some entry =>
              setActivityItem env.faults (alSet ad sid { entry with isValid := false })
          | none => jsPure ())))

/-- `markSessionInvalid`, catch included. -/
def markSessionInvalid (env : Env) (sid : Nat) : JsM Unit :=
  catchJs (markSessionInvalidBody env sid) ()

/-- The `forEach` of `cleanupExpiredSessions`: keep non-expired entries in
`cleanedData`, clear each expired subject's storage and record that a
change happened. -/
def sweepLoop (env : Env) :
    List (Nat × ActivityEntry) → List (Nat × ActivityEntry) → Bool →
    JsM (List (Nat × ActivityEntry) × Bool)
  | [], cleaned, changed => jsPure (cleaned, changed)
  | (sid, e) :: rest, cleaned, changed =>
      if isLocallyExpired env.parseDate env.nowMs e.lastActivity then
        jsBind (clearSession env sid) (fun _ => sweepLoop env rest cleaned true)
      else
        sweepLoop env rest (cleaned ++ [(sid, e)]) changed

/-- Body of `cleanupExpiredSessions`: sweep the activity map and rewrite it
only when something was removed. -/
def cleanupExpiredSessionsBody (env : Env) : JsM Unit :=
  jsBind (getActivityData env) (fun ad =>
  jsBind (sweepLoop env ad [] false) (fun res =>
    if res.2 then setActivityItem env.faults res.1 else jsPure ()))

/-- `cleanupExpiredSessions`, catch included. -/
def cleanupExpiredSessions (env : Env) : JsM Unit :=
  catchJs (cleanupExpiredSessionsBody env) ()

/-! ## Session negotiation (useChat.ts) -/

/-- What the awaited `Promise.race([validateSession, timeout])` can do in
`validateAndRestoreSession`: resolve with `{valid, session}`, lose the race
to the 10-second timeout, or reject with a transport error. -/
inductive ValidateOutcome where
  | resolved (valid : Bool) (session : Option ChatSession)
  | timeout
  | transportFail
deriving DecidableEq, Repr

/-- Body of `validateAndRestoreSession`, paired with whether the remote
`validateSession` call was actually issued.  Reading the stored record,
bailing out on a missing or invalid record, adopting a valid session
(storing it), clearing on an explicit rejection; a timeout or transport
failure throws to the catch. -/
def validateAndRestoreBody (env : Env) (sid : Nat) (remote : ValidateOutcome) :
    JsM (Option ChatSession × Bool) :=
  jsBind (getStoredSession env sid) (fun stored =>
    match stored with
    | none => jsPure (none, false)
    | some sd =>
        if sd.isValid then
          match remote with
          | ValidateOutcome.resolved valid sess =>
              if valid then
                match sess with
                | some s => jsBind (storeSession env sid s) (fun _ => jsPure (some s, true))
                | none => jsBind (clearSession env sid) (fun _ => jsPure (none, true))
              else jsBind (clearSession env sid) (fun _ => jsPure (none, true))
          | ValidateOutcome.timeout => jsThrow
          | ValidateOutcome.transportFail => jsThrow
        else jsPure (none, false))

/-- `validateAndRestoreSession`: the catch marks the stored record invalid
and reports no session. -/
def validateAndRestoreSession (env : Env) (sid : Nat) (remote : ValidateOutcome) :
    JsM (Option ChatSession × Bool) :=
  catchWith (validateAndRestoreBody env sid remote)
    (jsBind (markSessionInvalid env sid) (fun _ => jsPure (none, true)))

/-- The default-flow session `queryFn` (no `selectedSessionId`): try to
restore, otherwise call `getOrCreateSession` (modelled by its outcome
`remoteCreate`) and store the result.  Returns the query outcome, the
storage state, whether `validateSession` was called and whether
`getOrCreateSession` was called. -/
def defaultSessionQuery (env : Env) (sid : Nat) (remoteValidate : ValidateOutcome)
    (remoteCreate : Except JsErr ChatSession) (st : LocalStorage) :
    Except JsErr ChatSession × LocalStorage × Bool × Bool :=
  match validateAndRestoreSession env sid remoteValidate st with
  | (Except.ok (some s, calledV), st1) => (Except.ok s, st1, calledV, false)
  | (Except.ok (none, calledV), st1) =>
      (match remoteCreate with
       | Except.ok s => (Except.ok s, (storeSession env sid s st1).2, calledV, true)
       | Except.error e => (Except.error e, st1, calledV, true))
  | (Except.error _, st1) =>
      -- the queryFn's own catch around restoration: continue to create
      (match remoteCreate with
       | Except.ok s => (Except.ok s, (storeSession env sid s st1).2, true, true)
       | Except.error e => (Except.error e, st1, true, true))

/-- The messages query: enabled only with a current session, fetching
`getMessages(subjectId, currentSession.id)` — the session id the message
fetch targets. -/
def messagesQueryTarget : Option ChatSession → Option Nat
  | some s => some s.id
  | none => none

/-! ## Retry policy and the selected-session branch (claim C7) -/

/-- Whether `pat` occurs contiguously in `s` (JavaScript
`String.prototype.includes`). -/
def charListContains (pat : List Char) : List Char → Bool
  | [] => decide (pat = [])
  | c :: rest => pat.isPrefixOf (c :: rest) || charListContains pat rest

/-- `s.includes(pat)`. -/
def strIncludes (s pat : String) : Bool :=
  charListContains pat.toList s.toList

/-- The session query's `retry` predicate:
`failureCount < 2 && !errorMessage.includes('timeout')`. -/
def shouldRetrySessionQuery (failureCount : Nat) (errorMessage : String) : Bool :=
  decide (failureCount < 2) && !(strIncludes errorMessage "timeout")

/-- `retryDelay` of the session query (fixed backoff, milliseconds). -/
def retryDelayMs : Nat := 1000

/-- The remote response shape of `validateSession`. -/
structure ValidateResponse where
  valid : Bool
  session : Option ChatSession
deriving DecidableEq, Repr

/-- The `selectedSessionId` branch of the session `queryFn`: a resolved
invalid response throws `'Selected session is no longer valid'`; a
transport rejection is rethrown unchanged by the catch. -/
def selectedSessionQueryFn (remote : Except String ValidateResponse) :
    Except String ChatSession :=
  match remote with
  | Except.ok r =>
      if r.valid then
        match r.session with
        | some s => Except.ok s
        | none => Except.error "Selected session is no longer valid"
      else Except.error "Selected session is no longer valid"
  | Except.error e => Except.error e

/-! ## The throttle utility (useChat.ts) -/

/-- The 30-second interval passed to `throttle(trackActivity, 30000)`. -/
def THROTTLE_DELAY_MS : Int := 30000

/-- The throttle closure's captured state plus the record of executed
touches: `lastExecTime`, the absolute deadline of the pending `setTimeout`
if any, and the times at which the wrapped function ran. -/
structure ThrState where
  lastExecTime : Int
  pending : Option Int
  fires : List Int
deriving DecidableEq, Repr

/-- One activity event at time `t`: past the window, execute immediately;
inside the window, clear any pending timeout and schedule the deferred
execution at `t + (delay - (t - lastExecTime))`, i.e. the window boundary
`lastExecTime + delay`. -/
def throttleEvent (delay : Int) (t : Int) (st : ThrState) : ThrState :=
  if delay < t - st.lastExecTime then
    { lastExecTime := t, pending := st.pending, fires := st.fires ++ [t] }
  else
    { st with pending := some (st.lastExecTime + delay) }

/-- The pending timeout firing at its deadline: run the function, stamp
`lastExecTime = Date.now()`. -/
def throttleTimerFire (st : ThrState) : ThrState :=
  match st.pending with
  | some d => { lastExecTime := d, pending := none, fires := st.fires ++ [d] }
  | none => st

/-- A sequence of activity events processed by the throttle closure. -/
def throttleRun (delay : Int) (events : List Int) (st : ThrState) : ThrState :=
  events.foldl (fun s t => throttleEvent delay t s) st

/-! ## sendMessage (useChat.ts) and its trimming (claim C8) -/

/-- JavaScript string whitespace as far as `String.prototype.trim` is
concerned, restricted to the characters this code can meet. -/
def isJsSpace (c : Char) : Bool :=
  c = ' ' || c = '\t' || c = '\n' || c = '\r' || c = '\x0b' || c = '\x0c'

/-- `String.prototype.trim`. -/
def jsTrim (s : String) : String :=
  String.mk (((s.toList.dropWhile isJsSpace).reverse.dropWhile isJsSpace).reverse)

/-- `SendMessageRequest` (src/types/chat.ts). -/
structure SendMessageRequest where
  content : String
  session_id : Option Nat
deriving DecidableEq, Repr

/-- `currentSession?.id || 0`, as used for the optimistic entry's session
field. -/
def sessionIdOf : Option ChatSession → Nat
  | some s => s.id
  | none => 0

/-- `sendMessage(content)`: an input whose trimmed form is empty returns at
once — no request, no cache mutation (`none`).  Otherwise the request
carries the trimmed content and the current session id, and `onMutate`
appends the optimistic entry built from that same trimmed content. -/
def sendMessage (nowMs : Nat) (nowIso : String) (currentSession : Option ChatSession)
    (cache : List ChatMessage) (content : String) :
    Option (SendMessageRequest × List ChatMessage) :=
  if jsTrim content = "" then none
  else
    let messageData : SendMessageRequest :=
      { content := jsTrim content, session_id := (currentSession.map (fun s => s.id)) }
    some (messageData,
      (onMutateCache cache
        (mkOptimisticMessage nowMs messageData.content nowIso
          (sessionIdOf currentSession))).1)

/-- The wire body of `chatApi.sendMessage`: `{ message: data.content }`. -/
def sendMessageWireBody (data : SendMessageRequest) : String :=
  data.content

/-! ## Concrete data for witnesses -/

/-- A date parser for the resume witness: "T0" parses to 0 ms. -/
def c1_parse : String → Option Int := fun s => if s = "T0" then some 0 else none

def c1_sd : StoredSessionData :=
  { sessionId := 42, subjectId := 3, lastActivity := "T0", isValid := true }

def c1_session : ChatSession :=
  { id := 42, user := 1, subject := 3, is_active := true, status := "active",
    created_at := "c", updated_at := "u" }

def c1_store : LocalStorage :=
  { sessions := [(3, Cell.value c1_sd)], activity := Cell.absent }

def c4_store : LocalStorage := { sessions := [], activity := Cell.absent }

/-- A date parser under which every stored timestamp is unparseable. -/
def c10_parse : String → Option Int := fun _ => none

def c10_sd : StoredSessionData :=
  { sessionId := 5, subjectId := 1, lastActivity := "garbage", isValid := true }

def c10_entry : ActivityEntry :=
  { sessionId := 6, lastActivity := "also-garbage", isValid := true }

def c10_store : LocalStorage :=
  { sessions := [(1, Cell.value c10_sd)], activity := Cell.value [(2, c10_entry)] }

/-- Claim C2: on a successful send, reconciliation removes exactly the
optimistic entries whose ids lie in the reserved high range, appends the
confirmed user message then the confirmed assistant message in that order,
and leaves no provisional entry in the cache. -/
theorem reconcile_removes_reserved_appends_confirmed
    (cache : List ChatMessage) (u a : ChatMessage)
    (hu : u.id < TEMP_ID_THRESHOLD) (ha : a.id < TEMP_ID_THRESHOLD) :
    reconcileOnSuccess cache u a =
      cache.filter (fun msg => msg.id < TEMP_ID_THRESHOLD) ++ [u, a]
    ∧ ∀ m ∈ reconcileOnSuccess cache u a, m.id < TEMP_ID_THRESHOLD := by
  constructor
  · rfl
  · intro m hm
    simp only [reconcileOnSuccess, List.mem_append, List.mem_filter,
      List.mem_cons, List.not_mem_nil, or_false] at hm
    rcases hm with ⟨_, hlt⟩ | hm | hm
    · exact of_decide_eq_true hlt
    · exact hm ▸ hu
    · exact hm ▸ ha

/-- Witness for C2: Scenario E.  One provisional entry, confirmed ids 101
then 102; the cache ends as exactly those two confirmed entries. -/
theorem reconcile_removes_reserved_appends_confirmed_witness :
    scenE_user.id < TEMP_ID_THRESHOLD
    ∧ (reconcileOnSuccess [scenE_provisional] scenE_user scenE_assistant =
        [scenE_provisional].filter (fun msg => msg.id < TEMP_ID_THRESHOLD)
          ++ [scenE_user, scenE_assistant]
      ∧ ∀ m ∈ reconcileOnSuccess [scenE_provisional] scenE_user scenE_assistant,
          m.id < TEMP_ID_THRESHOLD) :=
  ⟨by decide,
   reconcile_removes_reserved_appends_confirmed [scenE_provisional]
     scenE_user scenE_assistant (by decide) (by decide)⟩

/-- Counterexample to claim C3: with two sends in flight (two provisional
entries in the reserved range), the reconciliation run by the first send's
success removes the second send's provisional entry as well — it does not
remain in the cache. -/
theorem reconcile_discards_concurrent_pending_counterexample :
    TEMP_ID_THRESHOLD ≤ conc_pendingB.id
    ∧ conc_pendingB ∈ [conc_pendingA, conc_pendingB]
    ∧ conc_pendingB ∉
        reconcileOnSuccess [conc_pendingA, conc_pendingB] conc_userA conc_assistantA := by
  refine ⟨by decide, by decide, ?_⟩
  decide

/-- Claim C3 as amended: reconciliation for one send's success removes every
provisional entry in the reserved high range from the cache, including the
provisional entries of other still-pending sends. -/
theorem reconcile_removes_all_reserved_entries
    (cache : List ChatMessage) (u a : ChatMessage)
    (hu : u.id < TEMP_ID_THRESHOLD) (ha : a.id < TEMP_ID_THRESHOLD) :
    ∀ m ∈ cache, TEMP_ID_THRESHOLD ≤ m.id → m ∉ reconcileOnSuccess cache u a := by
  intro m _ hge hmem
  simp only [reconcileOnSuccess, List.mem_append, List.mem_filter,
    List.mem_cons, List.not_mem_nil, or_false] at hmem
  rcases hmem with ⟨_, hlt⟩ | hm | hm
  · exact absurd (of_decide_eq_true hlt) (Nat.not_lt.mpr hge)
  · exact absurd (hm ▸ hu) (Nat.not_lt.mpr (hm ▸ hge))
  · exact absurd (hm ▸ ha) (Nat.not_lt.mpr (hm ▸ hge))

/-- Witness for the amended C3 at the concrete concurrent-send data. -/
theorem reconcile_removes_all_reserved_entries_witness :
    conc_pendingA ∉
      reconcileOnSuccess [conc_pendingA, conc_pendingB] conc_userA conc_assistantA :=
  reconcile_removes_all_reserved_entries [conc_pendingA, conc_pendingB]
    conc_userA conc_assistantA (by decide) (by decide)
    conc_pendingA (by decide) (by decide)

/-- Claim C5: a failed send is atomic.  `onMutate` appends exactly the
provisional entry, and the `onError` rollback makes the cache for the
(topic, session) key equal the pre-send snapshot exactly — same entries,
same order. -/
theorem failed_send_restores_snapshot
    (cache : List ChatMessage) (optimistic : ChatMessage) :
    (onMutateCache cache optimistic).1 = cache ++ [optimistic]
    ∧ failedSendCache cache optimistic = cache := by
  exact ⟨rfl, rfl⟩

/-! ## Helper lemmas about the storage embedding -/

theorem catchJs_fst_isOk {α : Type} (m : JsM α) (fb : α) (st : LocalStorage) :
    ((catchJs m fb st).1).isOk = true := by
  unfold catchJs
  cases hm : m st with
  | mk v st1 => cases v <;> rfl

theorem catchJs_unit_ok (m : JsM Unit) (st : LocalStorage) :
    ∃ st2, catchJs m () st = (Except.ok (), st2) := by
  cases hm : m st with
  | mk v st1 =>
    cases v with
    | ok a => exact ⟨st1, by simp [catchJs, hm]⟩
    | error e => exact ⟨st1, by simp [catchJs, hm]⟩

theorem clearSession_ok (env : Env) (sid : Nat) (st : LocalStorage) :
    ∃ st2, clearSession env sid st = (Except.ok (), st2) :=
  catchJs_unit_ok (clearSessionBody env sid) st

theorem getActivityData_stable (env : Env) (st : LocalStorage) :
    ∃ ad, getActivityData env st = (Except.ok ad, st) := by
  unfold getActivityData getActivityDataBody getActivityItem catchJs jsBind jsPure jsThrow
  by_cases hf : env.faults.getItemFails
  · exact ⟨[], by simp [hf]⟩
  · cases hc : st.activity with
    | absent => exact ⟨[], by simp [hf, hc]⟩
    | value v => exact ⟨v, by simp [hf, hc]⟩
    | corrupt => exact ⟨[], by simp [hf, hc]⟩

theorem alLookup_alSet_self {α : Type} (l : List (Nat × α)) (k : Nat) (v : α) :
    alLookup (alSet l k v) k = some v := by
  induction l with
  | nil => simp [alSet, alLookup]
  | cons h t ih =>
    obtain ⟨k2, v2⟩ := h
    by_cases hk : k2 = k
    · simp [alSet, hk, alLookup]
    · simp [alSet, hk, alLookup, ih]

/-- Claim C9: every `SessionStorageManager` operation is total with respect
to storage faults.  For every fault configuration and storage state, store,
get, touch (updateActivity), invalidate, clear and sweep all return
normally (`Except.ok`, never an exception), and a failing or corrupted read
degrades to the "no record found" result: a throwing `getItem` or a
corrupted per-subject cell makes `getStoredSession` return `null`, and a
corrupted activity map makes `getActivityData` return `{}`. -/
theorem storage_ops_never_throw (pd : String → Option Int) (nowMs : Int)
    (nowIso : String) (f1 f2 f3 : Bool) (sid : Nat) (session : ChatSession)
    (st : LocalStorage) :
    ((storeSession ⟨pd, nowMs, nowIso, ⟨f1, f2, f3⟩⟩ sid session st).1).isOk = true
    ∧ ((getStoredSession ⟨pd, nowMs, nowIso, ⟨f1, f2, f3⟩⟩ sid st).1).isOk = true
    ∧ ((updateActivity ⟨pd, nowMs, nowIso, ⟨f1, f2, f3⟩⟩ sid st).1).isOk = true
    ∧ ((markSessionInvalid ⟨pd, nowMs, nowIso, ⟨f1, f2, f3⟩⟩ sid st).1).isOk = true
    ∧ ((clearSession ⟨pd, nowMs, nowIso, ⟨f1, f2, f3⟩⟩ sid st).1).isOk = true
    ∧ ((cleanupExpiredSessions ⟨pd, nowMs, nowIso, ⟨f1, f2, f3⟩⟩ st).1).isOk = true
    ∧ (getStoredSession ⟨pd, nowMs, nowIso, ⟨true, f2, f3⟩⟩ sid st).1 = Except.ok none
    ∧ (getStoredSession ⟨pd, nowMs, nowIso, ⟨false, f2, f3⟩⟩ sid
        { st with sessions := alSet st.sessions sid Cell.corrupt }).1 = Except.ok none
    ∧ (getActivityData ⟨pd, nowMs, nowIso, ⟨false, f2, f3⟩⟩
        { st with activity := Cell.corrupt }).1 = Except.ok [] := by
  refine ⟨catchJs_fst_isOk _ _ _, catchJs_fst_isOk _ _ _, catchJs_fst_isOk _ _ _,
    catchJs_fst_isOk _ _ _, catchJs_fst_isOk _ _ _, catchJs_fst_isOk _ _ _, ?_, ?_, ?_⟩
  · simp [getStoredSession, getStoredSessionBody, getSessionItem, catchJs, jsBind]
  · have hcell : sessionCell { st with sessions := alSet st.sessions sid Cell.corrupt } sid
        = Cell.corrupt := by
      simp [sessionCell, alLookup_alSet_self]
    simp [getStoredSession, getStoredSessionBody, getSessionItem, catchJs, jsBind,
      jsThrow, hcell]
  · simp [getActivityData, getActivityDataBody, getActivityItem, catchJs, jsBind, jsThrow]

theorem sweepLoop_spec (env : Env) (ad : List (Nat × ActivityEntry)) :
    ∀ (cleaned : List (Nat × ActivityEntry)) (changed : Bool) (st : LocalStorage),
    ∃ st2, sweepLoop env ad cleaned changed st =
      (Except.ok
        (cleaned ++ ad.filter
            (fun p => !(isLocallyExpired env.parseDate env.nowMs p.2.lastActivity)),
          changed || ad.any
            (fun p => isLocallyExpired env.parseDate env.nowMs p.2.lastActivity)),
        st2) := by
  induction ad with
  | nil =>
    intro cleaned changed st
    exact ⟨st, by simp [sweepLoop, jsPure]⟩
  | cons hd t ih =>
    intro cleaned changed st
    obtain ⟨sid, e⟩ := hd
    by_cases hexp : isLocallyExpired env.parseDate env.nowMs e.lastActivity
    · obtain ⟨stc, hc⟩ := clearSession_ok env sid st
      obtain ⟨st2, h2⟩ := ih cleaned true stc
      refine ⟨st2, ?_⟩
      simp [sweepLoop, hexp, jsBind, hc, h2, List.filter_cons, List.any_cons]
    · obtain ⟨st2, h2⟩ := ih (cleaned ++ [(sid, e)]) changed st
      refine ⟨st2, ?_⟩
      simp only [Bool.not_eq_true] at hexp
      simp [sweepLoop, hexp, h2, List.filter_cons, List.any_cons, List.append_assoc]

theorem sweepLoop_state_id (env : Env) (ad : List (Nat × ActivityEntry)) :
    ∀ (cleaned : List (Nat × ActivityEntry)) (changed : Bool) (st : LocalStorage),
    ad.any (fun p => isLocallyExpired env.parseDate env.nowMs p.2.lastActivity) = false →
    sweepLoop env ad cleaned changed st = (Except.ok (cleaned ++ ad, changed), st) := by
  induction ad with
  | nil =>
    intro cleaned changed st _
    simp [sweepLoop, jsPure]
  | cons hd t ih =>
    intro cleaned changed st hany
    obtain ⟨sid, e⟩ := hd
    simp only [List.any_cons, Bool.or_eq_false_iff] at hany
    simp [sweepLoop, hany.1, ih _ _ _ hany.2, List.append_assoc]

/-- Claim C10: `isLocallyExpired` never throws — its body cannot raise, so
the expired-on-error catch branch is unreachable for unparseable dates —
and an unparseable `lastActivity` makes it return `false` (NaN compares
false).  Consequently a record with a corrupted timestamp is treated as
never expired by both the lazy get-side check (`getStoredSession` returns
the record unchanged, clearing nothing) and the periodic sweep (the
activity entry survives `cleanupExpiredSessions`). -/
theorem unparseable_date_never_expires (pd : String → Option Int)
    (nowMs : Int) (nowIso : String) (s : String) (sd : StoredSessionData)
    (sid sid2 : Nat) (st : LocalStorage) (ad : List (Nat × ActivityEntry))
    (e : ActivityEntry)
    (hs : pd s = none) (hsd : pd sd.lastActivity = none)
    (he : pd e.lastActivity = none)
    (hcell : sessionCell st sid = Cell.value sd)
    (hact : st.activity = Cell.value ad) (hmem : (sid2, e) ∈ ad) :
    isLocallyExpired pd nowMs s = false
    ∧ getStoredSession ⟨pd, nowMs, nowIso, noFaults⟩ sid st = (Except.ok (some sd), st)
    ∧ (sid2, e) ∈ activityListOf
        ((cleanupExpiredSessions ⟨pd, nowMs, nowIso, noFaults⟩ st).2) := by
  have hnan : ∀ s2, pd s2 = none → isLocallyExpired pd nowMs s2 = false := by
    intro s2 h2
    simp [isLocallyExpired, dateGetTime, h2, jsSub, jsDivC, jsGtC]
  refine ⟨hnan s hs, ?_, ?_⟩
  · simp [getStoredSession, getStoredSessionBody, getSessionItem, catchJs, jsBind,
      jsPure, noFaults, hcell, hnan sd.lastActivity hsd]
  · have hga : getActivityData ⟨pd, nowMs, nowIso, noFaults⟩ st = (Except.ok ad, st) := by
      simp [getActivityData, getActivityDataBody, getActivityItem, catchJs, jsBind,
        jsPure, noFaults, hact]
    by_cases hany : ad.any
        (fun p => isLocallyExpired pd nowMs p.2.lastActivity) = true
    · obtain ⟨st2, hsw⟩ := sweepLoop_spec ⟨pd, nowMs, nowIso, noFaults⟩ ad [] false st
      have hclean : (cleanupExpiredSessions ⟨pd, nowMs, nowIso, noFaults⟩ st).2 = { st2 with activity := Cell.value (List.filter (fun p => !(isLocallyExpired pd nowMs p.2.lastActivity)) ad) } := by
        simp only [cleanupExpiredSessions, cleanupExpiredSessionsBody, catchJs, jsBind,
          hga, hsw]
        simp [hany, setActivityItem, noFaults]
      rw [hclean]
      simp only [activityListOf, List.mem_filter]
      exact ⟨hmem, by simp [hnan e.lastActivity he]⟩
    · simp only [Bool.not_eq_true] at hany
      have hsw := sweepLoop_state_id ⟨pd, nowMs, nowIso, noFaults⟩ ad [] false st hany
      have hclean : (cleanupExpiredSessions ⟨pd, nowMs, nowIso, noFaults⟩ st).2 = st := by
        simp only [cleanupExpiredSessions, cleanupExpiredSessionsBody, catchJs, jsBind,
          hga, hsw]
        simp [jsPure]
      rw [hclean]
      simp only [activityListOf, hact]
      exact hmem

/-- Witness for C10 at a parser that parses nothing: the stored record is
returned un-expired and the activity entry survives the sweep. -/
theorem unparseable_date_never_expires_witness :
    isLocallyExpired c10_parse 99999999 "whatever" = false
    ∧ getStoredSession ⟨c10_parse, 99999999, "now", noFaults⟩ 1 c10_store =
        (Except.ok (some c10_sd), c10_store)
    ∧ (2, c10_entry) ∈ activityListOf
        ((cleanupExpiredSessions ⟨c10_parse, 99999999, "now", noFaults⟩ c10_store).2) :=
  unparseable_date_never_expires c10_parse 99999999 "now" "whatever" c10_sd 1 2
    c10_store [(2, c10_entry)] c10_entry rfl rfl rfl (by decide) rfl (by decide)

theorem throttleRun_within (delay : Int) (events : List Int) :
    ∀ (L : Int) (p : Option Int) (f : List Int),
    (∀ t ∈ events, t - L ≤ delay) →
    throttleRun delay events ⟨L, p, f⟩ =
      ⟨L, if events.isEmpty then p else some (L + delay), f⟩ := by
  induction events with
  | nil =>
    intro L p f _
    simp [throttleRun]
  | cons e rest ih =>
    intro L p f hwin
    have he : ¬ (delay < e - L) := not_lt.mpr (hwin e (by simp))
    have hstep : throttleEvent delay e ⟨L, p, f⟩ = ⟨L, some (L + delay), f⟩ := by
      simp [throttleEvent, he]
    have htail := ih L (some (L + delay)) f (fun t ht => hwin t (by simp [ht]))
    simp only [throttleRun, List.foldl_cons] at htail ⊢
    rw [hstep, htail]
    cases rest <;> simp

/-- Claim C6: for every nonempty burst of activity events arriving inside
one open 30-second throttle window (the window that began at the last
execution time `L`), the throttle executes nothing during the burst and
schedules exactly one trailing-edge deferred touch, which fires at the
window boundary `L + 30000` — one touch for the window, not one per event
and not more than one. -/
theorem throttle_single_trailing_touch (L : Int) (events : List Int)
    (hne : events ≠ []) (hwin : ∀ t ∈ events, t - L ≤ THROTTLE_DELAY_MS) :
    (throttleRun THROTTLE_DELAY_MS events ⟨L, none, []⟩).fires = []
    ∧ (throttleRun THROTTLE_DELAY_MS events ⟨L, none, []⟩).pending
        = some (L + THROTTLE_DELAY_MS)
    ∧ (throttleTimerFire (throttleRun THROTTLE_DELAY_MS events ⟨L, none, []⟩)).fires
        = [L + THROTTLE_DELAY_MS] := by
  have hrun := throttleRun_within THROTTLE_DELAY_MS events L none [] hwin
  have hempty : events.isEmpty = false := by
    cases events with
    | nil => exact absurd rfl hne
    | cons a t => rfl
  rw [hrun, hempty]
  simp [throttleTimerFire]

/-- Witness for C6: three events at 1 s, 2 s and 15 s into an open window
starting at 0 produce exactly one touch, at 30 s. -/
theorem throttle_single_trailing_touch_witness :
    (throttleRun THROTTLE_DELAY_MS [1000, 2000, 15000] ⟨0, none, []⟩).fires = []
    ∧ (throttleRun THROTTLE_DELAY_MS [1000, 2000, 15000] ⟨0, none, []⟩).pending
        = some (0 + THROTTLE_DELAY_MS)
    ∧ (throttleTimerFire (throttleRun THROTTLE_DELAY_MS [1000, 2000, 15000] ⟨0, none, []⟩)).fires
        = [0 + THROTTLE_DELAY_MS] :=
  throttle_single_trailing_touch 0 [1000, 2000, 15000] (by decide) (by decide)

/-- Counterexample to claim C7: an explicit validation rejection of a
selected history session makes the queryFn throw
`'Selected session is no longer valid'`, and the retry predicate
(`failureCount < 2 && !errorMessage.includes('timeout')`) returns `true`
for that error at failure count 0 — the rejection IS retried, contrary to
"no retry is ever performed for an explicit validation rejection". -/
theorem retry_on_explicit_rejection_counterexample :
    selectedSessionQueryFn (Except.ok { valid := false, session := none })
      = Except.error "Selected session is no longer valid"
    ∧ shouldRetrySessionQuery 0 "Selected session is no longer valid" = true := by
  exact ⟨rfl, by decide⟩

/-- Claim C7 as amended: session-query retries are capped at two additional
attempts with a fixed 1-second delay and are skipped exactly for errors
whose message contains `'timeout'`; every other error — including the
explicit rejection of a selected history session and transport failures —
is retried while the attempt budget lasts. -/
theorem retry_policy_amended (n : Nat) (msg : String) :
    (2 ≤ n → shouldRetrySessionQuery n msg = false)
    ∧ (strIncludes msg "timeout" = true → shouldRetrySessionQuery n msg = false)
    ∧ (n < 2 → strIncludes msg "timeout" = false → shouldRetrySessionQuery n msg = true)
    ∧ retryDelayMs = 1000 := by
  refine ⟨?_, ?_, ?_, rfl⟩
  · intro h
    simp [shouldRetrySessionQuery, decide_eq_false (not_lt.mpr h)]
  · intro h
    simp [shouldRetrySessionQuery, h]
  · intro h1 h2
    simp [shouldRetrySessionQuery, h1, h2]

/-- Witness for the amended C7: the cap stops a third retry, a timeout
message is never retried, and a transport failure is retried. -/
theorem retry_policy_amended_witness :
    shouldRetrySessionQuery 2 "Network error. Please check your connection." = false
    ∧ shouldRetrySessionQuery 1 "Session validation timeout" = false
    ∧ shouldRetrySessionQuery 0 "Network error. Please check your connection." = true :=
  ⟨(retry_policy_amended 2 "Network error. Please check your connection.").1 (le_refl 2),
   (retry_policy_amended 1 "Session validation timeout").2.1 (by decide),
   (retry_policy_amended 0 "Network error. Please check your connection.").2.2.1
     (by decide) (by decide)⟩

/-- Claim C8: `sendMessage` rejects any input whose trimmed form is empty —
no request, no cache mutation — and for `"  Hello  "` both the request
content and the optimistic cache entry's content are exactly `"Hello"`
(and the wire body `{ message: data.content }` carries `"Hello"`). -/
theorem sendMessage_trims_and_rejects_empty (nowMs : Nat) (nowIso : String)
    (cs : Option ChatSession) (cache : List ChatMessage) :
    (∀ content, jsTrim content = "" → sendMessage nowMs nowIso cs cache content = none)
    ∧ sendMessage nowMs nowIso cs cache "" = none
    ∧ sendMessage nowMs nowIso cs cache "   " = none
    ∧ sendMessage nowMs nowIso cs cache "  Hello  " =
        some ({ content := "Hello", session_id := cs.map (fun s => s.id) },
          cache ++ [mkOptimisticMessage nowMs "Hello" nowIso (sessionIdOf cs)])
    ∧ sendMessageWireBody { content := "Hello", session_id := cs.map (fun s => s.id) }
        = "Hello" := by
  refine ⟨?_, rfl, rfl, rfl, rfl⟩
  intro content hc
  simp [sendMessage, hc]

/-- Witness for C8: a single-space input is rejected with no request. -/
theorem sendMessage_trims_and_rejects_empty_witness :
    sendMessage 5 "t" none [] " " = none :=
  (sendMessage_trims_and_rejects_empty 5 "t" none []).1 " " (by decide)

theorem isLocallyExpired_false_of_fresh (pd : String → Option Int) (nowMs : Int)
    (la : String) (t : Int) (hp : pd la = some t) (hfresh : nowMs - t ≤ 300000) :
    isLocallyExpired pd nowMs la = false := by
  simp only [isLocallyExpired, dateGetTime, hp, jsSub, jsDivC, jsGtC, TIMEOUT_MINUTES]
  rw [decide_eq_false_iff_not, not_lt]
  rw [div_le_iff₀ (by norm_num : (0 : ℚ) < 1000 * 60)]
  have hc : ((nowMs : ℚ) - (t : ℚ)) ≤ 300000 := by exact_mod_cast hfresh
  linarith

theorem isLocallyExpired_true_of_stale (pd : String → Option Int) (nowMs : Int)
    (la : String) (t : Int) (hp : pd la = some t) (hstale : 300000 < nowMs - t) :
    isLocallyExpired pd nowMs la = true := by
  simp only [isLocallyExpired, dateGetTime, hp, jsSub, jsDivC, jsGtC, TIMEOUT_MINUTES,
    decide_eq_true_eq]
  rw [lt_div_iff₀ (by norm_num : (0 : ℚ) < 1000 * 60)]
  have hc : (300000 : ℚ) < (nowMs : ℚ) - (t : ℚ) := by exact_mod_cast hstale
  linarith

theorem getStoredSession_fresh (env : Env) (sid : Nat) (sd : StoredSessionData)
    (st : LocalStorage) (hflt : env.faults.getItemFails = false)
    (hcell : sessionCell st sid = Cell.value sd)
    (hexp : isLocallyExpired env.parseDate env.nowMs sd.lastActivity = false) :
    getStoredSession env sid st = (Except.ok (some sd), st) := by
  simp [getStoredSession, getStoredSessionBody, getSessionItem, catchJs, jsBind,
    jsPure, hflt, hcell, hexp]

theorem getStoredSession_reports_none (env : Env) (sid : Nat) (st : LocalStorage)
    (h : sessionCell st sid = Cell.absent
      ∨ ∃ sd, sessionCell st sid = Cell.value sd
          ∧ isLocallyExpired env.parseDate env.nowMs sd.lastActivity = true) :
    ∃ st1, getStoredSession env sid st = (Except.ok none, st1) := by
  by_cases hflt : env.faults.getItemFails
  · exact ⟨st, by simp [getStoredSession, getStoredSessionBody, getSessionItem,
      catchJs, jsBind, hflt]⟩
  · rcases h with habs | ⟨sd, hcell, hexp⟩
    · exact ⟨st, by simp [getStoredSession, getStoredSessionBody, getSessionItem,
        catchJs, jsBind, jsPure, hflt, habs]⟩
    · obtain ⟨st2, hc⟩ := clearSession_ok env sid st
      exact ⟨st2, by simp [getStoredSession, getStoredSessionBody, getSessionItem,
        catchJs, jsBind, jsPure, hflt, hcell, hexp, hc]⟩

theorem storeSession_writes_record (env : Env) (sid : Nat) (session : ChatSession)
    (st : LocalStorage) (hset : env.faults.setItemFails = false) :
    ∃ st2, storeSession env sid session st = (Except.ok (), st2)
      ∧ sessionCell st2 sid = Cell.value { sessionId := session.id, subjectId := sid, lastActivity := env.nowIso, isValid := sessionIsValidFlag session } := by
  obtain ⟨ad, hga⟩ := getActivityData_stable env st
  refine ⟨{ sessions := alSet st.sessions sid (Cell.value { sessionId := session.id, subjectId := sid, lastActivity := env.nowIso, isValid := sessionIsValidFlag session }), activity := Cell.value (alSet ad sid { sessionId := session.id, lastActivity := env.nowIso, isValid := sessionIsValidFlag session }) }, ?_, ?_⟩
  · simp [storeSession, storeSessionBody, catchJs, jsBind, hga, setActivityItem,
      setSessionItem, hset]
  · simp [sessionCell, alLookup_alSet_self]

/-- Claim C1: with a locally stored record that is fresh (last activity
within the 5-minute threshold) and marked valid, and a remote validation
that resolves `valid=true` with the session of that same id, the default
negotiation takes the resume path: it adopts the validated session
(`Resumed`, no `getOrCreateSession` call), the adopted id equals the stored
one, the local record is refreshed with the new timestamp and a true
validity flag, and the message fetch targets that same session id. -/
theorem resume_path_preserves_session_id (pd : String → Option Int)
    (nowMs : Int) (nowIso : String) (sid : Nat) (sd : StoredSessionData)
    (t : Int) (s : ChatSession) (rc : Except JsErr ChatSession) (st : LocalStorage)
    (hcell : sessionCell st sid = Cell.value sd) (hvalid : sd.isValid = true)
    (hp : pd sd.lastActivity = some t) (hfresh : nowMs - t ≤ 300000)
    (hid : s.id = sd.sessionId) (hstatus : s.status = "active")
    (hactive : s.is_active = true) :
    (defaultSessionQuery ⟨pd, nowMs, nowIso, noFaults⟩ sid
        (ValidateOutcome.resolved true (some s)) rc st).1 = Except.ok s
    ∧ (defaultSessionQuery ⟨pd, nowMs, nowIso, noFaults⟩ sid
        (ValidateOutcome.resolved true (some s)) rc st).2.2.1 = true
    ∧ (defaultSessionQuery ⟨pd, nowMs, nowIso, noFaults⟩ sid
        (ValidateOutcome.resolved true (some s)) rc st).2.2.2 = false
    ∧ sessionCell ((defaultSessionQuery ⟨pd, nowMs, nowIso, noFaults⟩ sid
        (ValidateOutcome.resolved true (some s)) rc st).2.1) sid
        = Cell.value { sessionId := sd.sessionId, subjectId := sid, lastActivity := nowIso, isValid := true }
    ∧ messagesQueryTarget (some s) = some sd.sessionId := by
  have hexp := isLocallyExpired_false_of_fresh pd nowMs sd.lastActivity t hp hfresh
  have hg : getStoredSession ⟨pd, nowMs, nowIso, noFaults⟩ sid st
      = (Except.ok (some sd), st) :=
    getStoredSession_fresh ⟨pd, nowMs, nowIso, noFaults⟩ sid sd st rfl hcell hexp
  obtain ⟨st2, hstore, hcell2⟩ :=
    storeSession_writes_record ⟨pd, nowMs, nowIso, noFaults⟩ sid s st rfl
  have hflag : sessionIsValidFlag s = true := by
    simp [sessionIsValidFlag, hstatus, hactive]
  have hquery : defaultSessionQuery ⟨pd, nowMs, nowIso, noFaults⟩ sid
      (ValidateOutcome.resolved true (some s)) rc st = (Except.ok s, st2, true, false) := by
    simp only [defaultSessionQuery, validateAndRestoreSession, catchWith,
      validateAndRestoreBody, jsBind, hg, hvalid, if_true, hstore, jsPure]
  rw [hquery]
  refine ⟨rfl, rfl, rfl, ?_, by simp [messagesQueryTarget, hid]⟩
  rw [hcell2]
  simp [hid, hflag]

/-- Witness for C1: subject 3, stored session 42 touched 2 minutes before
now, server confirms; the resume path returns session 42 without any
get-or-create call and refreshes the record. -/
theorem resume_path_preserves_session_id_witness :
    (defaultSessionQuery ⟨c1_parse, 120000, "T1", noFaults⟩ 3
        (ValidateOutcome.resolved true (some c1_session)) (Except.error JsErr.err)
        c1_store).1 = Except.ok c1_session
    ∧ (defaultSessionQuery ⟨c1_parse, 120000, "T1", noFaults⟩ 3
        (ValidateOutcome.resolved true (some c1_session)) (Except.error JsErr.err)
        c1_store).2.2.1 = true
    ∧ (defaultSessionQuery ⟨c1_parse, 120000, "T1", noFaults⟩ 3
        (ValidateOutcome.resolved true (some c1_session)) (Except.error JsErr.err)
        c1_store).2.2.2 = false
    ∧ sessionCell ((defaultSessionQuery ⟨c1_parse, 120000, "T1", noFaults⟩ 3
        (ValidateOutcome.resolved true (some c1_session)) (Except.error JsErr.err)
        c1_store).2.1) 3
        = Cell.value { sessionId := c1_sd.sessionId, subjectId := 3, lastActivity := "T1", isValid := true }
    ∧ messagesQueryTarget (some c1_session) = some c1_sd.sessionId :=
  resume_path_preserves_session_id c1_parse 120000 "T1" 3 c1_sd 0 c1_session
    (Except.error JsErr.err) c1_store (by decide) rfl (by decide) (by decide)
    rfl rfl rfl

/-- Claim C4: when no local activity record exists for the topic, or the
stored record's last activity is more than the 5-minute threshold ago, the
default-flow negotiation never calls `validateSession` and does call
`getOrCreateSession` — whatever the remote outcomes and fault flags. -/
theorem stale_or_missing_record_skips_validate (pd : String → Option Int)
    (nowMs : Int) (nowIso : String) (flt : Faults) (sid : Nat)
    (sd : StoredSessionData) (t : Int) (rV : ValidateOutcome)
    (rC : Except JsErr ChatSession) (st : LocalStorage)
    (h : sessionCell st sid = Cell.absent
      ∨ (sessionCell st sid = Cell.value sd ∧ pd sd.lastActivity = some t
          ∧ 300000 < nowMs - t)) :
    (defaultSessionQuery ⟨pd, nowMs, nowIso, flt⟩ sid rV rC st).2.2.1 = false
    ∧ (defaultSessionQuery ⟨pd, nowMs, nowIso, flt⟩ sid rV rC st).2.2.2 = true := by
  have hg : ∃ st1, getStoredSession ⟨pd, nowMs, nowIso, flt⟩ sid st
      = (Except.ok none, st1) := by
    apply getStoredSession_reports_none
    rcases h with h1 | ⟨h1, h2, h3⟩
    · exact Or.inl h1
    · exact Or.inr ⟨sd, h1, isLocallyExpired_true_of_stale pd nowMs sd.lastActivity t h2 h3⟩
  obtain ⟨st1, hg⟩ := hg
  have hvars : validateAndRestoreSession ⟨pd, nowMs, nowIso, flt⟩ sid rV st
      = (Except.ok (none, false), st1) := by
    simp [validateAndRestoreSession, catchWith, validateAndRestoreBody, jsBind, hg, jsPure]
  cases rC with
  | ok s => simp [defaultSessionQuery, hvars]
  | error e => simp [defaultSessionQuery, hvars]

/-- Witness for C4: a topic with no stored record skips validation and goes
to get-or-create. -/
theorem stale_or_missing_record_skips_validate_witness :
    (defaultSessionQuery ⟨c1_parse, 0, "T1", noFaults⟩ 1 ValidateOutcome.timeout
        (Except.error JsErr.err) c4_store).2.2.1 = false
    ∧ (defaultSessionQuery ⟨c1_parse, 0, "T1", noFaults⟩ 1 ValidateOutcome.timeout
        (Except.error JsErr.err) c4_store).2.2.2 = true :=
  stale_or_missing_record_skips_validate c1_parse 0 "T1" noFaults 1 c1_sd 0
    ValidateOutcome.timeout (Except.error JsErr.err) c4_store (Or.inl (by decide))
